import Mathlib

/-!
Shallow embedding of `index.js` (PGP decryption Lambda).

The JavaScript module composes three external services: AWS Secrets Manager
(`getSecretValue`), S3 (`listObjectsV2`, `getObject`, `upload`) and the
`openpgp` library (`readPrivateKey`, `decryptKey`, `readMessage`, `decrypt`).
We model each external call by an oracle function in a `World` record, and we
embed each JavaScript function as a value of a writer-over-`Except` monad
`M α := Except String α × List Ev`: the `Except` component is the resolved /
rejected promise, and the `List Ev` component is the ordered trace of external
calls the function performed.  JavaScript `try { … } catch (e) { throw wrap e }`
becomes `tryCatchM`; a thrown `Error` is the `Except.error` of its `.message`
string.  Environment variables are `Option String` (`none` = unset), and the
JavaScript truthiness test `if (s)` on a string-or-undefined value is
`jsTruthyOpt` (an unset value and the empty string are falsy).
-/

/-- Trace events: one per external-service call performed by the code. -/
inductive Ev : Type
  /-- `secretsManager.getSecretValue({SecretId})` (line 23); the argument is
  the `SecretId`, which the handler may leave `undefined`. -/
  | secretsFetch (secretId : Option String)
  /-- `s3.listObjectsV2({Bucket, Prefix})` (line 63). -/
  | listCall (bucket : String) (pfx : Option String)
  /-- `s3.getObject({Bucket, Key})` (line 88). -/
  | getObjCall (bucket : String) (key : String)
  /-- `openpgp.readPrivateKey({armoredKey})` (line 141). -/
  | readKeyCall (armoredKey : String)
  /-- `openpgp.decryptKey({privateKey, passphrase})` (line 146). -/
  | decryptKeyCall (pass : String)
  /-- `openpgp.readMessage({binaryMessage})` (line 153). -/
  | readMsgCall
  /-- `openpgp.decrypt({message, decryptionKeys})` (line 156). -/
  | decryptMsgCall
  /-- `s3.upload({Bucket, Key, Body, ContentType})` (line 120); carries the
  destination key. -/
  | uploadCall (bucket : String) (key : String)
deriving DecidableEq, Repr

/-- The monad of the embedding: result-or-error together with the ordered
trace of external calls made. -/
@[reducible] def M (α : Type) : Type := Except String α × List Ev

instance : Monad M where
  pure a := (Except.ok a, [])
  bind x f :=
    match x with
    | (Except.ok a, t) =>
      match f a with
      | (r, t2) => (r, t ++ t2)
    | (Except.error m, t) => (Except.error m, t)

/-- Record one external call in the trace. -/
def emit (e : Ev) : M Unit := (Except.ok (), [e])

/-- `throw new Error(m)`. -/
def raise {α : Type} (m : String) : M α := (Except.error m, [])

/-- Lift an oracle answer (no further trace of its own). -/
def liftEx {α : Type} : Except String α → M α
  | Except.ok a => (Except.ok a, [])
  | Except.error m => (Except.error m, [])

/-- JavaScript `try { x } catch (e) { h(e.message) }`: the trace of the failed
attempt is kept and the handler's trace is appended after it. -/
def tryCatchM {α : Type} (x : M α) (h : String → M α) : M α :=
  match x with
  | (Except.ok a, t) => (Except.ok a, t)
  | (Except.error m, t) =>
    match h m with
    | (r, t2) => (r, t ++ t2)

/-- Truthiness of a JavaScript string-or-undefined/null value: unset and the
empty string are falsy. -/
def jsTruthyOpt (o : Option String) : Bool :=
  match o with
  | some s => !(s == "")
  | none => false

/-- `a || d` where `a` is a string-or-undefined and `d` a string literal
(lines 181, 188, 189). -/
def jsOrStr (o : Option String) (d : String) : String :=
  if jsTruthyOpt o then o.getD d else d

/-- `a || b` where both are string-or-undefined (line 183). -/
def jsOr2 (a b : Option String) : Option String :=
  if jsTruthyOpt a then a else b

/-- `o || null` (line 37). -/
def jsOrNull (o : Option String) : Option String :=
  if jsTruthyOpt o then o else none

/-- Property lookup in a parsed JSON object whose values are strings:
`obj[k]`, `undefined` when the field is absent. -/
def jsGet (fields : List (String × String)) (k : String) : Option String :=
  (fields.find? (fun p => p.1 == k)).map (fun p => p.2)

/-- `Array.prototype.pop()` on the non-empty result of `key.split('/')`
(line 107). -/
def jsPop (l : List String) : String := l.getLastD ""

/-- `s.split('/')` on the character list: splitting an empty string gives
`[""]`, exactly as in JavaScript. -/
def splitSlashChars : List Char → List (List Char)
  | [] => [[]]
  | ch :: rest =>
    let r := splitSlashChars rest
    if ch = '/' then [] :: r
    else
      match r with
      | [] => [[ch]]
      | g :: gs => (ch :: g) :: gs

/-- `key.split('/')` (line 107). -/
def jsSplitSlash (s : String) : List String :=
  (splitSlashChars s.data).map (fun l => String.mk l)

/-- `s.endsWith(suffix)` as a character-list suffix test (lines 108, 244). -/
def jsEndsWith (s suffix : String) : Bool :=
  List.isSuffixOf suffix.data s.data

/-- `s.slice(0, -n)`: all but the last `n` characters (line 108). -/
def jsSlice (s : String) (n : Nat) : String :=
  String.mk (s.data.take (s.data.length - n))

/-- What `getSecretValue` can hand back: no `SecretString` (line 39‑41),
a `SecretString` that `JSON.parse` rejects (line 29), or a parsed JSON
object with string fields. -/
inductive SecretFetch : Type
  | noString
  | badJson (msg : String)
  | obj (fields : List (String × String))
deriving DecidableEq, Repr

/-- `{ Location, Key, … }` returned by `s3.upload(...).promise()`. -/
structure UploadResult where
  Location : String
  Key : String
deriving DecidableEq, Repr

/-- `{ Key, Size, LastModified }` entries of `listObjectsV2().Contents`. -/
structure ObjDesc where
  Key : String
  Size : Nat
  LastModified : String
deriving DecidableEq, Repr

/-- The oracles for the three external services.  File bodies are byte
lists. -/
structure World where
  secrets : String → Except String SecretFetch
  listObjs : String → Option String → Except String (List ObjDesc)
  getObj : String → String → Except String (List Nat)
  upload : String → String → List Nat → Except String UploadResult
  readPrivateKey : String → Except String String
  decryptKey : String → String → Except String String
  readMessage : List Nat → Except String (List Nat)
  decryptMsg : List Nat → String → Except String (List Nat)

/-- `{ privateKey, passphrase }` as returned by `getPGPPrivateKey`
(lines 35‑38) and as resolved by the handler (lines 203‑216). -/
structure KeyMaterial where
  privateKey : String
  passphrase : Option String
deriving DecidableEq, Repr

/-- Traced call to `secretsManager.getSecretValue` (line 23).  Calling with
an `undefined` `SecretId` is rejected by the SDK's client-side parameter
validation. -/
def callSecrets (w : World) (secretId : Option String) : M SecretFetch := do
  emit (Ev.secretsFetch secretId)
  match secretId with
  | none => raise "Missing required key 'SecretId' in params"
  | some sn => liftEx (w.secrets sn)

/-- Traced call to `s3.listObjectsV2` (line 63). -/
def callList (w : World) (bucket : String) (pfx : Option String) :
    M (List ObjDesc) := do
  emit (Ev.listCall bucket pfx)
  liftEx (w.listObjs bucket pfx)

/-- Traced call to `s3.getObject` (line 88). -/
def callGetObj (w : World) (bucket key : String) : M (List Nat) := do
  emit (Ev.getObjCall bucket key)
  liftEx (w.getObj bucket key)

/-- Traced call to `s3.upload` (line 120). -/
def callUpload (w : World) (bucket key : String) (body : List Nat) :
    M UploadResult := do
  emit (Ev.uploadCall bucket key)
  liftEx (w.upload bucket key body)

/-- Traced call to `openpgp.readPrivateKey` (line 141). -/
def callReadKey (w : World) (armored : String) : M String := do
  emit (Ev.readKeyCall armored)
  liftEx (w.readPrivateKey armored)

/-- Traced call to `openpgp.decryptKey` (line 146). -/
def callDecryptKey (w : World) (pk pass : String) : M String := do
  emit (Ev.decryptKeyCall pass)
  liftEx (w.decryptKey pk pass)

/-- Traced call to `openpgp.readMessage` (line 153). -/
def callReadMsg (w : World) (data : List Nat) : M (List Nat) := do
  emit Ev.readMsgCall
  liftEx (w.readMessage data)

/-- Traced call to `openpgp.decrypt` (line 156). -/
def callDecryptMsg (w : World) (msg : List Nat) (pk : String) :
    M (List Nat) := do
  emit Ev.decryptMsgCall
  liftEx (w.decryptMsg msg pk)

/-- The default parameter `keyName = 'pgp-key'` (line 14): the default
applies exactly when the argument is `undefined`. -/
def keyNameEff (keyName : Option String) : String :=
  match keyName with
  | none => "pgp-key"
  | some s => s

/-- `getPGPPrivateKey(secretName, keyName = 'pgp-key')`, lines 14‑46. -/
def getPGPPrivateKey (w : World) (secretName : Option String)
    (keyName : Option String) : M KeyMaterial :=
  let kn := keyNameEff keyName
  tryCatchM
    (do
      let fetch ← callSecrets w secretName
      match fetch with
      | SecretFetch.noString => raise "Secret value is not a string"
      | SecretFetch.badJson m => raise m
      | SecretFetch.obj fields =>
        if jsTruthyOpt (jsGet fields kn) then
          pure { privateKey := (jsGet fields kn).getD "",
                 passphrase := jsOrNull (jsGet fields "passphrase") }
        else
          raise ("Secret does not contain " ++ kn ++ " field"))
    (fun m => raise ("Failed to retrieve PGP private key: " ++ m))

/-- `listEncryptedFiles(bucketName, prefix)`, lines 54‑71.  The SDK models
`Contents` as a (possibly empty) array, and an array is truthy in
JavaScript, so `result.Contents || []` (line 66) returns `Contents`
itself. -/
def listEncryptedFiles (w : World) (bucketName : String)
    (pfx : Option String) : M (List ObjDesc) :=
  tryCatchM
    (do
      let contents ← callList w bucketName pfx
      pure contents)
    (fun m => raise ("Failed to list files from S3: " ++ m))

/-- `downloadFileFromS3(bucketName, key)`, lines 79‑94. -/
def downloadFileFromS3 (w : World) (bucketName key : String) : M (List Nat) :=
  tryCatchM
    (callGetObj w bucketName key)
    (fun m => raise ("Failed to download file " ++ key ++ ": " ++ m))

/-- Line 109 of the source reads the identifier `decryptedPrefix` inside
`uploadDecryptedFile`.  No binding of that name is in scope there: the
function's fourth parameter is named `encryptedPrefix` (line 104), and the
handler's `const decryptedPrefix` (line 189) is local to the handler.
Evaluating the template literal therefore throws
`ReferenceError: decryptedPrefix is not defined`. -/
def decryptedPfxRef : Except String String :=
  Except.error "decryptedPrefix is not defined"

/-- `uploadDecryptedFile(bucketName, key, decryptedContent, encryptedPrefix)`,
lines 104‑127.  `key.split('/').pop()` is `jsPop (key.splitOn "/")`;
`fileName.slice(0, -4)` is `String.dropRight 4`. -/
def uploadDecryptedFile (w : World) (bucketName key : String)
    (decryptedContent : List Nat) (encryptedPfx : String) : M UploadResult :=
  tryCatchM
    (do
      let fileName := jsPop (jsSplitSlash key)
      let decryptedFileName :=
        if jsEndsWith fileName ".gpg" then jsSlice fileName 4
        else fileName ++ ".decrypted"
      let dPfx ← liftEx decryptedPfxRef
      let decryptedKey := dPfx ++ decryptedFileName
      callUpload w bucketName decryptedKey decryptedContent)
    (fun m => raise ("Failed to upload decrypted file: " ++ m))

/-- The destination-key computation of lines 107‑109 as the source intends
it (and as the handler's call on line 256 supplies it): the handler's
`decryptedPrefix` ++ the basename with `.gpg` stripped, else with
`.decrypted` appended. -/
def intendedDecryptedKey (dPfx key : String) : String :=
  let fileName := jsPop (jsSplitSlash key)
  let decryptedFileName :=
    if jsEndsWith fileName ".gpg" then jsSlice fileName 4
    else fileName ++ ".decrypted"
  dPfx ++ decryptedFileName

/-- `decryptFile(encryptedData, privateKeyArmored, passphrase)`,
lines 136‑167. -/
def decryptFile (w : World) (encryptedData : List Nat)
    (privateKeyArmored : String) (passphrase : Option String) :
    M (List Nat) :=
  tryCatchM
    (do
      let pk ← callReadKey w privateKeyArmored
      let pk2 ←
        if jsTruthyOpt passphrase then
          callDecryptKey w pk (passphrase.getD "")
        else
          pure pk
      let msg ← callReadMsg w encryptedData
      callDecryptMsg w msg pk2)
    (fun m => raise ("Failed to decrypt file: " ++ m))

/-- A result object pushed by the handler's per-file loop: the success shape
`{originalFile, decryptedFile, size, lastModified}` (lines 258‑263) or the
failure shape `{originalFile, error, status}` (lines 269‑273); absent JSON
fields are `none`. -/
structure ProcResult where
  originalFile : String
  decryptedFile : Option String := none
  size : Option Nat := none
  lastModified : Option String := none
  error : Option String := none
  status : Option String := none
deriving DecidableEq, Repr

/-- Body of the handler's per-file `try` block, lines 241‑265: skip directory
markers, else download, decrypt, upload and build the success record.
Returns `none` for the `continue` on line 246. -/
def processOneBody (w : World) (bucketName pgpKey : String)
    (pgpPass : Option String) (decryptedPfx : String) (f : ObjDesc) :
    M (Option ProcResult) :=
  if jsEndsWith f.Key "/" then pure none
  else do
    let encryptedData ← downloadFileFromS3 w bucketName f.Key
    let decryptedData ← decryptFile w encryptedData pgpKey pgpPass
    let uploadResult ← uploadDecryptedFile w bucketName f.Key decryptedData
      decryptedPfx
    pure (some { originalFile := f.Key,
                 decryptedFile := some uploadResult.Key,
                 size := some f.Size,
                 lastModified := some f.LastModified })

/-- One iteration of the handler's loop, lines 239‑275: the `try` body with
its `catch` pushing the failure record. -/
def processOne (w : World) (bucketName pgpKey : String)
    (pgpPass : Option String) (decryptedPfx : String) (f : ObjDesc) :
    M (Option ProcResult) :=
  tryCatchM
    (processOneBody w bucketName pgpKey pgpPass decryptedPfx f)
    (fun m => pure (some { originalFile := f.Key,
                           error := some m,
                           status := some "failed" }))

/-- The handler's `for (const file of files)` loop, lines 236‑275, as a fold
producing the `results` array. -/
def processAll (w : World) (bucketName pgpKey : String)
    (pgpPass : Option String) (decryptedPfx : String) :
    List ObjDesc → M (List ProcResult)
  | [] => pure []
  | f :: fs => do
    let r ← processOne w bucketName pgpKey pgpPass decryptedPfx f
    let rest ← processAll w bucketName pgpKey pgpPass decryptedPfx fs
    pure (r.toList ++ rest)

/-- The three body shapes the handler returns: lines 227‑233 (`decryptedFiles:
[]`), lines 282‑288 (`message`, `results`) and lines 293‑299 (`error`,
`message`). -/
inductive RespBody : Type
  | noFiles (message : String)
  | summary (message : String) (results : List ProcResult)
  | errorBody (error : String) (message : String)
deriving DecidableEq, Repr

/-- `{ statusCode, body }`. -/
structure Response where
  statusCode : Nat
  body : RespBody
deriving DecidableEq, Repr

/-- Lines 203‑216: use the environment private key when truthy, else fetch
from Secrets Manager. -/
def resolveKeyMaterial (w : World) (privateKey passphrase secretName
    keyName : Option String) : M KeyMaterial :=
  if jsTruthyOpt privateKey then
    pure { privateKey := privateKey.getD "", passphrase := passphrase }
  else
    getPGPPrivateKey w secretName keyName

/-- The environment-variable configuration surface read on lines 181‑189.
`none` models an unset variable. -/
structure Env where
  bucketName : Option String := none
  s3BucketName : Option String := none
  s3Pfx : Option String := none
  secretName : Option String := none
  secretNameUpper : Option String := none
  privateKey : Option String := none
  passphrase : Option String := none
  keyName : Option String := none
  encryptedPfx : Option String := none
  decryptedPfx : Option String := none
deriving DecidableEq, Repr

/-- The summary message of line 285. -/
def summaryMessage (total success failure : Nat) : String :=
  "Processed " ++ toString total ++ " files. Success: " ++ toString success
    ++ ", Failures: " ++ toString failure

/-- Line 181: `process.env.bucketName || process.env.S3_BUCKET_NAME ||
'sftp-file-sync-vivien'`. -/
def effBucketName (env : Env) : String :=
  jsOrStr env.bucketName (jsOrStr env.s3BucketName "sftp-file-sync-vivien")

/-- Line 183: `process.env.secretName || process.env.SECRET_NAME`. -/
def effSecretName (env : Env) : Option String :=
  jsOr2 env.secretName env.secretNameUpper

/-- Line 189: `process.env.decryptedPrefix || 'decrypt_files/'`. -/
def effDecryptedPfx (env : Env) : String :=
  jsOrStr env.decryptedPfx "decrypt_files/"

/-- `exports.handler`, lines 175‑301. -/
def handler (w : World) (env : Env) : M Response :=
  tryCatchM
    (do
      let bucketName := effBucketName env
      let pfx := env.s3Pfx
      let secretName := effSecretName env
      let decryptedPfx := effDecryptedPfx env
      let km ← resolveKeyMaterial w env.privateKey env.passphrase secretName
        env.keyName
      let files ← listEncryptedFiles w bucketName pfx
      if files.length = 0 then
        pure { statusCode := 200,
               body := RespBody.noFiles "No files found to decrypt" }
      else do
        let results ← processAll w bucketName km.privateKey km.passphrase
          decryptedPfx files
        let successCount :=
          (results.filter (fun r => !(jsTruthyOpt r.error))).length
        let failureCount :=
          (results.filter (fun r => jsTruthyOpt r.error)).length
        pure { statusCode := 200,
               body := RespBody.summary
                 (summaryMessage files.length successCount failureCount)
                 results })
    (fun m => pure { statusCode := 500,
                     body := RespBody.errorBody "Internal server error" m })

/-! ## Run lemmas for the monad and the embedded functions -/

@[simp]
theorem liftEx_eq {α : Type} (x : Except String α) : liftEx x = (x, []) := by
  cases x <;> rfl

theorem bind_run {α β : Type} (x : M α) (f : α → M β) :
    x >>= f = (match x.1 with
      | Except.ok a => ((f a).1, x.2 ++ (f a).2)
      | Except.error m => (Except.error m, x.2)) := by
  cases x with
  | mk r t => cases r <;> rfl

@[simp]
theorem pure_eq {α : Type} (a : α) : (pure a : M α) = (Except.ok a, []) := rfl

@[simp]
theorem emit_eq (e : Ev) : emit e = (Except.ok (), [e]) := rfl

@[simp]
theorem raise_eq {α : Type} (m : String) :
    (raise m : M α) = (Except.error m, []) := rfl

@[simp]
theorem tryCatchM_ok {α : Type} (a : α) (t : List Ev) (h : String → M α) :
    tryCatchM (Except.ok a, t) h = (Except.ok a, t) := rfl

@[simp]
theorem tryCatchM_error {α : Type} (m : String) (t : List Ev)
    (h : String → M α) :
    tryCatchM (Except.error m, t) h = ((h m).1, t ++ (h m).2) := rfl

theorem append_ne_empty_left (a b : String) (h : a ≠ "") : a ++ b ≠ "" := by
  intro hab
  apply h
  cases a with
  | mk da =>
    cases b with
    | mk db =>
      have hd : da ++ db = [] := congrArg String.data hab
      have hda : da = [] := (List.append_eq_nil.mp hd).1
      subst hda
      rfl

theorem callSecrets_run_none (w : World) :
    callSecrets w none =
      (Except.error "Missing required key 'SecretId' in params",
       [Ev.secretsFetch none]) := rfl

theorem callSecrets_run_some (w : World) (sn : String) :
    callSecrets w (some sn) =
      (w.secrets sn, [Ev.secretsFetch (some sn)]) := by
  simp only [callSecrets, liftEx_eq]
  rfl

theorem callList_run (w : World) (b : String) (p : Option String) :
    callList w b p = (w.listObjs b p, [Ev.listCall b p]) := by
  simp only [callList, liftEx_eq]
  rfl

theorem callGetObj_run (w : World) (b k : String) :
    callGetObj w b k = (w.getObj b k, [Ev.getObjCall b k]) := by
  simp only [callGetObj, liftEx_eq]
  rfl

theorem callReadKey_run (w : World) (a : String) :
    callReadKey w a = (w.readPrivateKey a, [Ev.readKeyCall a]) := by
  simp only [callReadKey, liftEx_eq]
  rfl

theorem callDecryptKey_run (w : World) (pk pass : String) :
    callDecryptKey w pk pass = (w.decryptKey pk pass, [Ev.decryptKeyCall pass]) := by
  simp only [callDecryptKey, liftEx_eq]
  rfl

theorem callReadMsg_run (w : World) (d : List Nat) :
    callReadMsg w d = (w.readMessage d, [Ev.readMsgCall]) := by
  simp only [callReadMsg, liftEx_eq]
  rfl

theorem callDecryptMsg_run (w : World) (msg : List Nat) (pk : String) :
    callDecryptMsg w msg pk = (w.decryptMsg msg pk, [Ev.decryptMsgCall]) := by
  simp only [callDecryptMsg, liftEx_eq]
  rfl

/-- `listEncryptedFiles` run as a single match on the oracle answer. -/
theorem listEncryptedFiles_run (w : World) (b : String) (p : Option String) :
    listEncryptedFiles w b p =
      ((match w.listObjs b p with
        | Except.ok cs => Except.ok cs
        | Except.error m =>
          Except.error ("Failed to list files from S3: " ++ m)),
       [Ev.listCall b p]) := by
  cases h : w.listObjs b p <;>
    simp [listEncryptedFiles, callList_run, h, tryCatchM]

/-- `downloadFileFromS3` run as a single match on the oracle answer. -/
theorem downloadFileFromS3_run (w : World) (b k : String) :
    downloadFileFromS3 w b k =
      ((match w.getObj b k with
        | Except.ok v => Except.ok v
        | Except.error m =>
          Except.error ("Failed to download file " ++ k ++ ": " ++ m)),
       [Ev.getObjCall b k]) := by
  cases h : w.getObj b k <;>
    simp [downloadFileFromS3, callGetObj_run, h, tryCatchM]

/-- The upload step never reaches `s3.upload`: the reference to the unbound
`decryptedPrefix` on line 109 throws first, so the result is always the
wrapped `ReferenceError` and the trace is empty. -/
theorem uploadDecryptedFile_run (w : World) (b k : String) (c : List Nat)
    (e : String) :
    uploadDecryptedFile w b k c e =
      (Except.error
        "Failed to upload decrypted file: decryptedPrefix is not defined",
       []) := by
  simp [uploadDecryptedFile, decryptedPfxRef, tryCatchM]

/-- When `secretName` is `undefined` the SDK rejects the call; the wrapper
still re-throws with its prefix, after the one fetch attempt. -/
theorem getPGPPrivateKey_run_noSecretName (w : World) (kn : Option String) :
    getPGPPrivateKey w none kn =
      (Except.error
        "Failed to retrieve PGP private key: Missing required key 'SecretId' in params",
       [Ev.secretsFetch none]) := by
  simp [getPGPPrivateKey, callSecrets_run_none, bind_run, tryCatchM]

theorem getPGPPrivateKey_run_fetchErr (w : World) (sn : String)
    (kn : Option String) (m : String) (h : w.secrets sn = Except.error m) :
    getPGPPrivateKey w (some sn) kn =
      (Except.error ("Failed to retrieve PGP private key: " ++ m),
       [Ev.secretsFetch (some sn)]) := by
  simp [getPGPPrivateKey, callSecrets_run_some, bind_run, h, tryCatchM]

theorem getPGPPrivateKey_run_noString (w : World) (sn : String)
    (kn : Option String) (h : w.secrets sn = Except.ok SecretFetch.noString) :
    getPGPPrivateKey w (some sn) kn =
      (Except.error
        "Failed to retrieve PGP private key: Secret value is not a string",
       [Ev.secretsFetch (some sn)]) := by
  simp [getPGPPrivateKey, callSecrets_run_some, bind_run, h, tryCatchM]

theorem getPGPPrivateKey_run_badJson (w : World) (sn : String)
    (kn : Option String) (m : String)
    (h : w.secrets sn = Except.ok (SecretFetch.badJson m)) :
    getPGPPrivateKey w (some sn) kn =
      (Except.error ("Failed to retrieve PGP private key: " ++ m),
       [Ev.secretsFetch (some sn)]) := by
  simp [getPGPPrivateKey, callSecrets_run_some, bind_run, h, tryCatchM]

/-- Missing (or falsy) key field in the parsed secret payload. -/
theorem getPGPPrivateKey_run_missingField (w : World) (sn : String)
    (kn : Option String) (fields : List (String × String))
    (h : w.secrets sn = Except.ok (SecretFetch.obj fields))
    (hm : jsTruthyOpt (jsGet fields (keyNameEff kn)) = false) :
    getPGPPrivateKey w (some sn) kn =
      (Except.error
        ("Failed to retrieve PGP private key: Secret does not contain "
          ++ keyNameEff kn ++ " field"),
       [Ev.secretsFetch (some sn)]) := by
  simp [getPGPPrivateKey, callSecrets_run_some, bind_run, h, hm, tryCatchM]
  rw [← String.append_assoc, ← String.append_assoc]
  rfl

theorem getPGPPrivateKey_run_ok (w : World) (sn : String)
    (kn : Option String) (fields : List (String × String))
    (h : w.secrets sn = Except.ok (SecretFetch.obj fields))
    (hm : jsTruthyOpt (jsGet fields (keyNameEff kn)) = true) :
    getPGPPrivateKey w (some sn) kn =
      (Except.ok
        { privateKey := (jsGet fields (keyNameEff kn)).getD "",
          passphrase := jsOrNull (jsGet fields "passphrase") },
       [Ev.secretsFetch (some sn)]) := by
  simp [getPGPPrivateKey, callSecrets_run_some, bind_run, h, hm, tryCatchM]

/-- Whatever happens, `getPGPPrivateKey` makes exactly the one fetch
attempt. -/
theorem getPGPPrivateKey_trace (w : World) (sn kn : Option String) :
    (getPGPPrivateKey w sn kn).2 = [Ev.secretsFetch sn] := by
  cases sn with
  | none => simp [getPGPPrivateKey_run_noSecretName]
  | some s =>
    cases h : w.secrets s with
    | error m => simp [getPGPPrivateKey_run_fetchErr w s kn m h]
    | ok fetch =>
      cases fetch with
      | noString => simp [getPGPPrivateKey_run_noString w s kn h]
      | badJson m => simp [getPGPPrivateKey_run_badJson w s kn m h]
      | obj fields =>
        cases hm : jsTruthyOpt (jsGet fields (keyNameEff kn)) with
        | false => simp [getPGPPrivateKey_run_missingField w s kn fields h hm]
        | true => simp [getPGPPrivateKey_run_ok w s kn fields h hm]

theorem resolveKeyMaterial_truthy (w : World) (pk pp sn kn : Option String)
    (h : jsTruthyOpt pk = true) :
    resolveKeyMaterial w pk pp sn kn =
      (Except.ok { privateKey := pk.getD "", passphrase := pp }, []) := by
  simp [resolveKeyMaterial, h]

theorem resolveKeyMaterial_fallback (w : World) (pk pp sn kn : Option String)
    (h : jsTruthyOpt pk = false) :
    resolveKeyMaterial w pk pp sn kn = getPGPPrivateKey w sn kn := by
  simp [resolveKeyMaterial, h]

/-- The key-resolution step touches nothing but (at most one) secrets
fetch. -/
theorem resolveKeyMaterial_trace (w : World) (pk pp sn kn : Option String) :
    (resolveKeyMaterial w pk pp sn kn).2 = []
      ∨ (resolveKeyMaterial w pk pp sn kn).2 = [Ev.secretsFetch sn] := by
  cases h : jsTruthyOpt pk with
  | true => exact Or.inl (by simp [resolveKeyMaterial_truthy w pk pp sn kn h])
  | false =>
    refine Or.inr ?_
    rw [resolveKeyMaterial_fallback w pk pp sn kn h]
    exact getPGPPrivateKey_trace w sn kn

theorem decryptFile_run_readKeyErr (w : World) (d : List Nat) (k : String)
    (p : Option String) (m : String) (h : w.readPrivateKey k = Except.error m) :
    decryptFile w d k p =
      (Except.error ("Failed to decrypt file: " ++ m), [Ev.readKeyCall k]) := by
  simp [decryptFile, callReadKey_run, bind_run, h, tryCatchM]

theorem decryptFile_run_noPass_msgErr (w : World) (d : List Nat)
    (k : String) (p : Option String) (k1 m : String)
    (hp : jsTruthyOpt p = false) (hk : w.readPrivateKey k = Except.ok k1)
    (hm : w.readMessage d = Except.error m) :
    decryptFile w d k p =
      (Except.error ("Failed to decrypt file: " ++ m),
       [Ev.readKeyCall k, Ev.readMsgCall]) := by
  simp [decryptFile, callReadKey_run, callReadMsg_run, bind_run, hp, hk,
    hm, tryCatchM]

theorem decryptFile_run_noPass_dmErr (w : World) (d : List Nat)
    (k : String) (p : Option String) (k1 : String) (msg : List Nat)
    (m : String)
    (hp : jsTruthyOpt p = false) (hk : w.readPrivateKey k = Except.ok k1)
    (hm : w.readMessage d = Except.ok msg)
    (hd : w.decryptMsg msg k1 = Except.error m) :
    decryptFile w d k p =
      (Except.error ("Failed to decrypt file: " ++ m),
       [Ev.readKeyCall k, Ev.readMsgCall, Ev.decryptMsgCall]) := by
  simp [decryptFile, callReadKey_run, callReadMsg_run, callDecryptMsg_run,
    bind_run, hp, hk, hm, hd, tryCatchM]

theorem decryptFile_run_noPass_ok (w : World) (d : List Nat)
    (k : String) (p : Option String) (k1 : String) (msg out : List Nat)
    (hp : jsTruthyOpt p = false) (hk : w.readPrivateKey k = Except.ok k1)
    (hm : w.readMessage d = Except.ok msg)
    (hd : w.decryptMsg msg k1 = Except.ok out) :
    decryptFile w d k p =
      (Except.ok out,
       [Ev.readKeyCall k, Ev.readMsgCall, Ev.decryptMsgCall]) := by
  simp [decryptFile, callReadKey_run, callReadMsg_run, callDecryptMsg_run,
    bind_run, hp, hk, hm, hd, tryCatchM]

theorem decryptFile_run_pass_dkErr (w : World) (d : List Nat)
    (k : String) (p : Option String) (k1 m : String)
    (hp : jsTruthyOpt p = true) (hk : w.readPrivateKey k = Except.ok k1)
    (hdk : w.decryptKey k1 (p.getD "") = Except.error m) :
    decryptFile w d k p =
      (Except.error ("Failed to decrypt file: " ++ m),
       [Ev.readKeyCall k, Ev.decryptKeyCall (p.getD "")]) := by
  simp [decryptFile, callReadKey_run, callDecryptKey_run, bind_run, hp, hk,
    hdk, tryCatchM]

theorem decryptFile_run_pass_msgErr (w : World) (d : List Nat)
    (k : String) (p : Option String) (k1 k2 m : String)
    (hp : jsTruthyOpt p = true) (hk : w.readPrivateKey k = Except.ok k1)
    (hdk : w.decryptKey k1 (p.getD "") = Except.ok k2)
    (hm : w.readMessage d = Except.error m) :
    decryptFile w d k p =
      (Except.error ("Failed to decrypt file: " ++ m),
       [Ev.readKeyCall k, Ev.decryptKeyCall (p.getD ""), Ev.readMsgCall]) := by
  simp [decryptFile, callReadKey_run, callDecryptKey_run, callReadMsg_run,
    bind_run, hp, hk, hdk, hm, tryCatchM]

theorem decryptFile_run_pass_dmErr (w : World) (d : List Nat)
    (k : String) (p : Option String) (k1 k2 : String) (msg : List Nat)
    (m : String)
    (hp : jsTruthyOpt p = true) (hk : w.readPrivateKey k = Except.ok k1)
    (hdk : w.decryptKey k1 (p.getD "") = Except.ok k2)
    (hm : w.readMessage d = Except.ok msg)
    (hd : w.decryptMsg msg k2 = Except.error m) :
    decryptFile w d k p =
      (Except.error ("Failed to decrypt file: " ++ m),
       [Ev.readKeyCall k, Ev.decryptKeyCall (p.getD ""), Ev.readMsgCall,
        Ev.decryptMsgCall]) := by
  simp [decryptFile, callReadKey_run, callDecryptKey_run, callReadMsg_run,
    callDecryptMsg_run, bind_run, hp, hk, hdk, hm, hd, tryCatchM]

theorem decryptFile_run_pass_ok (w : World) (d : List Nat)
    (k : String) (p : Option String) (k1 k2 : String) (msg out : List Nat)
    (hp : jsTruthyOpt p = true) (hk : w.readPrivateKey k = Except.ok k1)
    (hdk : w.decryptKey k1 (p.getD "") = Except.ok k2)
    (hm : w.readMessage d = Except.ok msg)
    (hd : w.decryptMsg msg k2 = Except.ok out) :
    decryptFile w d k p =
      (Except.ok out,
       [Ev.readKeyCall k, Ev.decryptKeyCall (p.getD ""), Ev.readMsgCall,
        Ev.decryptMsgCall]) := by
  simp [decryptFile, callReadKey_run, callDecryptKey_run, callReadMsg_run,
    callDecryptMsg_run, bind_run, hp, hk, hdk, hm, hd, tryCatchM]

/-- Events of the per-object pipeline (download / PGP steps / upload) — the
operations the handler must not perform outside the loop. -/
def Ev.isPerObject : Ev → Bool
  | Ev.getObjCall _ _ => true
  | Ev.readKeyCall _ => true
  | Ev.decryptKeyCall _ => true
  | Ev.readMsgCall => true
  | Ev.decryptMsgCall => true
  | Ev.uploadCall _ _ => true
  | _ => false

/-- Secrets-store fetch events. -/
def isSecretsFetchEv : Ev → Bool
  | Ev.secretsFetch _ => true
  | _ => false

theorem perObject_not_secretsFetch (e : Ev) (h : Ev.isPerObject e = true) :
    isSecretsFetchEv e = false := by
  cases e <;> simp_all [Ev.isPerObject, isSecretsFetchEv]

/-- A directory marker is skipped: no result, no external call. -/
theorem processOne_dir (w : World) (b pk : String) (pp : Option String)
    (dpfx : String) (f : ObjDesc) (h : jsEndsWith f.Key "/" = true) :
    processOne w b pk pp dpfx f = (Except.ok none, []) := by
  simp [processOne, processOneBody, h, tryCatchM]

/-- A non-directory object always yields exactly one result record carrying
its key; with the unbound `decryptedPrefix` upload bug the record is always
the failure shape, its message is never empty, and the trace holds only
per-object operations. -/
theorem processOne_notDir (w : World) (b pk : String) (pp : Option String)
    (dpfx : String) (f : ObjDesc) (h : jsEndsWith f.Key "/" = false) :
    ∃ m t, processOne w b pk pp dpfx f =
        (Except.ok (some { originalFile := f.Key, error := some m,
                           status := some "failed" }), t)
      ∧ m ≠ "" ∧ t.all Ev.isPerObject = true := by
  have hFD : ("Failed to download file " ++ f.Key ++ ": ") ≠ "" :=
    append_ne_empty_left _ _
      (append_ne_empty_left _ _ (by decide))
  cases hg : w.getObj b f.Key with
  | error m0 =>
    refine ⟨"Failed to download file " ++ f.Key ++ ": " ++ m0,
      [Ev.getObjCall b f.Key], ?_, append_ne_empty_left _ _ hFD, rfl⟩
    simp [processOne, processOneBody, h, downloadFileFromS3_run, hg,
      bind_run, tryCatchM]
  | ok v =>
    cases hk : w.readPrivateKey pk with
    | error m0 =>
      refine ⟨"Failed to decrypt file: " ++ m0,
        [Ev.getObjCall b f.Key, Ev.readKeyCall pk], ?_,
        append_ne_empty_left _ _ (by decide), rfl⟩
      simp [processOne, processOneBody, h, downloadFileFromS3_run, hg,
        decryptFile_run_readKeyErr w v pk pp m0 hk, bind_run, tryCatchM]
    | ok k1 =>
      cases hp : jsTruthyOpt pp with
      | false =>
        cases hm : w.readMessage v with
        | error m0 =>
          refine ⟨"Failed to decrypt file: " ++ m0,
            [Ev.getObjCall b f.Key, Ev.readKeyCall pk, Ev.readMsgCall], ?_,
            append_ne_empty_left _ _ (by decide), rfl⟩
          simp [processOne, processOneBody, h, downloadFileFromS3_run, hg,
            decryptFile_run_noPass_msgErr w v pk pp k1 m0 hp hk hm,
            bind_run, tryCatchM]
        | ok msg =>
          cases hd : w.decryptMsg msg k1 with
          | error m0 =>
            refine ⟨"Failed to decrypt file: " ++ m0,
              [Ev.getObjCall b f.Key, Ev.readKeyCall pk, Ev.readMsgCall,
               Ev.decryptMsgCall], ?_,
              append_ne_empty_left _ _ (by decide), rfl⟩
            simp [processOne, processOneBody, h, downloadFileFromS3_run, hg,
              decryptFile_run_noPass_dmErr w v pk pp k1 msg m0 hp hk hm hd,
              bind_run, tryCatchM]
          | ok out =>
            refine ⟨"Failed to upload decrypted file: decryptedPrefix is not defined",
              [Ev.getObjCall b f.Key, Ev.readKeyCall pk, Ev.readMsgCall,
               Ev.decryptMsgCall], ?_, by decide, rfl⟩
            simp [processOne, processOneBody, h, downloadFileFromS3_run, hg,
              decryptFile_run_noPass_ok w v pk pp k1 msg out hp hk hm hd,
              uploadDecryptedFile_run, bind_run, tryCatchM]
      | true =>
        cases hdk : w.decryptKey k1 (pp.getD "") with
        | error m0 =>
          refine ⟨"Failed to decrypt file: " ++ m0,
            [Ev.getObjCall b f.Key, Ev.readKeyCall pk,
             Ev.decryptKeyCall (pp.getD "")], ?_,
            append_ne_empty_left _ _ (by decide), rfl⟩
          simp [processOne, processOneBody, h, downloadFileFromS3_run, hg,
            decryptFile_run_pass_dkErr w v pk pp k1 m0 hp hk hdk,
            bind_run, tryCatchM]
        | ok k2 =>
          cases hm : w.readMessage v with
          | error m0 =>
            refine ⟨"Failed to decrypt file: " ++ m0,
              [Ev.getObjCall b f.Key, Ev.readKeyCall pk,
               Ev.decryptKeyCall (pp.getD ""), Ev.readMsgCall], ?_,
              append_ne_empty_left _ _ (by decide), rfl⟩
            simp [processOne, processOneBody, h, downloadFileFromS3_run, hg,
              decryptFile_run_pass_msgErr w v pk pp k1 k2 m0 hp hk hdk hm,
              bind_run, tryCatchM]
          | ok msg =>
            cases hd : w.decryptMsg msg k2 with
            | error m0 =>
              refine ⟨"Failed to decrypt file: " ++ m0,
                [Ev.getObjCall b f.Key, Ev.readKeyCall pk,
                 Ev.decryptKeyCall (pp.getD ""), Ev.readMsgCall,
                 Ev.decryptMsgCall], ?_,
                append_ne_empty_left _ _ (by decide), rfl⟩
              simp [processOne, processOneBody, h, downloadFileFromS3_run,
                hg, decryptFile_run_pass_dmErr w v pk pp k1 k2 msg m0 hp hk
                hdk hm hd, bind_run, tryCatchM]
            | ok out =>
              refine ⟨"Failed to upload decrypted file: decryptedPrefix is not defined",
                [Ev.getObjCall b f.Key, Ev.readKeyCall pk,
                 Ev.decryptKeyCall (pp.getD ""), Ev.readMsgCall,
                 Ev.decryptMsgCall], ?_, by decide, rfl⟩
              simp [processOne, processOneBody, h, downloadFileFromS3_run,
                hg, decryptFile_run_pass_ok w v pk pp k1 k2 msg out hp hk
                hdk hm hd, uploadDecryptedFile_run, bind_run, tryCatchM]

/-- The loop always succeeds; in listing order, every non-directory
descriptor contributes exactly one result carrying its key, directory
markers contribute none, and the loop performs only per-object external
calls; every failure record carries a non-empty message. -/
theorem processAll_spec (w : World) (b pk : String) (pp : Option String)
    (dpfx : String) (files : List ObjDesc) :
    ∃ rs t, processAll w b pk pp dpfx files = (Except.ok rs, t)
      ∧ rs.map (fun r => r.originalFile)
          = ((files.filter (fun f => !(jsEndsWith f.Key "/"))).map
              (fun f => f.Key))
      ∧ (∀ r ∈ rs, r.error = none ∨ ∃ m, r.error = some m ∧ m ≠ "")
      ∧ t.all Ev.isPerObject = true := by
  induction files with
  | nil => exact ⟨[], [], rfl, rfl, by simp, rfl⟩
  | cons f fs ih =>
    obtain ⟨rs, t, hEq, hMap, hErr, hAll⟩ := ih
    cases hdir : jsEndsWith f.Key "/" with
    | true =>
      refine ⟨rs, t, ?_, ?_, hErr, hAll⟩
      · simp [processAll, processOne_dir w b pk pp dpfx f hdir, hEq,
          bind_run]
      · simp [List.filter_cons, hdir, hMap]
    | false =>
      obtain ⟨m, t1, hOne, hm, hAllt1⟩ := processOne_notDir w b pk pp dpfx
        f hdir
      refine ⟨{ originalFile := f.Key, error := some m,
                status := some "failed" } :: rs, t1 ++ t, ?_, ?_, ?_, ?_⟩
      · simp [processAll, hOne, hEq, bind_run]
      · simp [List.filter_cons, hdir, hMap]
      · intro r hr
        rcases List.mem_cons.mp hr with hr1 | hr2
        · exact Or.inr ⟨m, by simp [hr1], hm⟩
        · exact hErr r hr2
      · simp [List.all_append, hAllt1, hAll]

@[simp]
theorem isSecretsFetchEv_listCall (b : String) (p : Option String) :
    isSecretsFetchEv (Ev.listCall b p) = false := rfl

/-- The handler's trace contains exactly the secrets fetches performed by its
key-resolution step: listing and per-object processing never touch the
secrets store. -/
theorem handler_fetchCount (w : World) (env : Env) :
    List.countP (fun e => isSecretsFetchEv e) (handler w env).2
      = List.countP (fun e => isSecretsFetchEv e)
          (resolveKeyMaterial w env.privateKey env.passphrase
            (effSecretName env) env.keyName).2 := by
  rcases hR : resolveKeyMaterial w env.privateKey env.passphrase
    (effSecretName env) env.keyName with ⟨r0, t0⟩
  cases r0 with
  | error m =>
    simp [handler, bind_run, hR, tryCatchM]
  | ok km =>
    cases hL : w.listObjs (effBucketName env) env.s3Pfx with
    | error m =>
      simp [handler, bind_run, hR, listEncryptedFiles_run, hL, tryCatchM,
        List.countP_append, List.countP_cons]
    | ok files =>
      cases files with
      | nil =>
        simp [handler, bind_run, hR, listEncryptedFiles_run, hL, tryCatchM,
          List.countP_append, List.countP_cons]
      | cons f fs =>
        obtain ⟨rs, t2, hP, _, _, hAllP⟩ := processAll_spec w
          (effBucketName env) km.privateKey km.passphrase
          (effDecryptedPfx env) (f :: fs)
        have hcnt : List.countP (fun e => isSecretsFetchEv e) t2 = 0 := by
          rw [List.countP_eq_zero]
          intro e he
          simp [perObject_not_secretsFetch e (List.all_eq_true.mp hAllP e he)]
        simp [handler, bind_run, hR, listEncryptedFiles_run, hL, hP,
          tryCatchM, List.countP_append, List.countP_cons, hcnt]

theorem filter_length_split {α : Type} (p : α → Bool) (l : List α) :
    (l.filter (fun a => !(p a))).length + (l.filter p).length = l.length := by
  induction l with
  | nil => rfl
  | cons a l ih =>
    cases h : p a <;> simp [List.filter_cons, h] <;> omega

/-! ## Concrete worlds and environments used by the witnesses -/

/-- A world whose every oracle fails; witnesses override the fields they
need. -/
def errWorld : World where
  secrets := fun _ => Except.error "no"
  listObjs := fun _ _ => Except.error "no"
  getObj := fun _ _ => Except.error "no"
  upload := fun _ _ _ => Except.error "no"
  readPrivateKey := fun _ => Except.error "no"
  decryptKey := fun _ _ => Except.error "no"
  readMessage := fun _ => Except.error "no"
  decryptMsg := fun _ _ => Except.error "no"

/-- A world where download fails with `boom` and everything else with
`no`. -/
def wBoom : World := { errWorld with getObj := fun _ _ => Except.error "boom" }

/-- A world with an empty listing. -/
def wEmptyList : World :=
  { errWorld with listObjs := fun _ _ => Except.ok [] }

/-! ## Claims -/

/-- C1: the claim says a succeeding object's destination key is the
destination prefix plus the `.gpg`-stripped (else `.decrypted`-marked)
basename.  The code cannot deliver this: line 109 reads `decryptedPrefix`,
which is not in scope inside `uploadDecryptedFile` (the parameter is named
`encryptedPrefix`), so every upload attempt throws
`ReferenceError: decryptedPrefix is not defined` before `s3.upload` is
reached, no object can ever succeed, and the destination key is never
formed — while the computation up to that line (`intendedDecryptedKey`)
does produce exactly the key the claim describes. -/
theorem uploadDecryptedFile_referenceError :
    (∀ (w : World) (b k : String) (c : List Nat) (e : String),
      uploadDecryptedFile w b k c e =
        (Except.error
          "Failed to upload decrypted file: decryptedPrefix is not defined",
         []))
    ∧ intendedDecryptedKey "decrypt_files/" "encrypt_files/report.csv.gpg"
        = "decrypt_files/report.csv"
    ∧ intendedDecryptedKey "decrypt_files/" "encrypt_files/notes.txt"
        = "decrypt_files/notes.txt.decrypted" :=
  ⟨fun w b k c e => uploadDecryptedFile_run w b k c e, rfl, rfl⟩

/-- C2: any failure inside an object's download / decrypt / key-computation /
upload pipeline is caught and becomes a failure result carrying that
object's key and the error's message, and the remaining objects are still
processed (their results follow in the output sequence). -/
theorem processOne_failure_isolated (w : World) (b pk : String)
    (pp : Option String) (dpfx : String) (f : ObjDesc) (fs : List ObjDesc)
    (m : String) (tb : List Ev)
    (hbody : processOneBody w b pk pp dpfx f = (Except.error m, tb)) :
    ∃ rs t2, processAll w b pk pp dpfx fs = (Except.ok rs, t2)
      ∧ processAll w b pk pp dpfx (f :: fs) =
          (Except.ok ({ originalFile := f.Key, error := some m,
                        status := some "failed" } :: rs), tb ++ t2) := by
  obtain ⟨rs, t2, hEq, -, -, -⟩ := processAll_spec w b pk pp dpfx fs
  refine ⟨rs, t2, hEq, ?_⟩
  simp [processAll, processOne, hbody, tryCatchM, hEq, bind_run]

theorem processOne_failure_isolated_witness :
    (processOneBody wBoom "b" "pk" none "decrypt_files/"
        ⟨"encrypt_files/a.gpg", 1, "2023"⟩ =
      (Except.error "Failed to download file encrypt_files/a.gpg: boom",
       [Ev.getObjCall "b" "encrypt_files/a.gpg"]))
    ∧ ∃ rs t2,
        processAll wBoom "b" "pk" none "decrypt_files/"
            [⟨"encrypt_files/b.gpg", 2, "2023"⟩] = (Except.ok rs, t2)
        ∧ processAll wBoom "b" "pk" none "decrypt_files/"
              [⟨"encrypt_files/a.gpg", 1, "2023"⟩,
               ⟨"encrypt_files/b.gpg", 2, "2023"⟩] =
            (Except.ok
              ({ originalFile := "encrypt_files/a.gpg",
                 error := some "Failed to download file encrypt_files/a.gpg: boom",
                 status := some "failed" } :: rs),
             [Ev.getObjCall "b" "encrypt_files/a.gpg"] ++ t2) :=
  ⟨rfl,
   processOne_failure_isolated wBoom "b" "pk" none "decrypt_files/"
     ⟨"encrypt_files/a.gpg", 1, "2023"⟩ [⟨"encrypt_files/b.gpg", 2, "2023"⟩]
     "Failed to download file encrypt_files/a.gpg: boom"
     [Ev.getObjCall "b" "encrypt_files/a.gpg"] rfl⟩

/-- C3: the loop yields, in listing order, exactly one result per
non-directory descriptor (carrying that descriptor's key, so none is
processed twice) and none for directory markers; hence the number of
results equals the number of non-directory descriptors. -/
theorem processAll_one_result_per_object (w : World) (b pk : String)
    (pp : Option String) (dpfx : String) (files : List ObjDesc) :
    ∃ rs t, processAll w b pk pp dpfx files = (Except.ok rs, t)
      ∧ rs.map (fun r => r.originalFile)
          = ((files.filter (fun f => !(jsEndsWith f.Key "/"))).map
              (fun f => f.Key))
      ∧ rs.length
          = (files.filter (fun f => !(jsEndsWith f.Key "/"))).length := by
  obtain ⟨rs, t, hEq, hMap, -, -⟩ := processAll_spec w b pk pp dpfx files
  refine ⟨rs, t, hEq, hMap, ?_⟩
  have := congrArg List.length hMap
  simpa using this

/-- C7: when the listing call succeeds the lister hands back the `Contents`
sequence unchanged — an empty match yields an empty sequence and not an
error — and it can only fail when the underlying listing call itself
fails, with that failure's message wrapped. -/
theorem listEncryptedFiles_contract (w : World) (b : String)
    (p : Option String) :
    (∀ cs, w.listObjs b p = Except.ok cs →
      listEncryptedFiles w b p = (Except.ok cs, [Ev.listCall b p]))
    ∧ (∀ m, (listEncryptedFiles w b p).1 = Except.error m →
        ∃ m0, w.listObjs b p = Except.error m0
          ∧ m = "Failed to list files from S3: " ++ m0) := by
  constructor
  · intro cs h
    simp [listEncryptedFiles_run, h]
  · intro m h
    cases hx : w.listObjs b p with
    | ok cs =>
      rw [listEncryptedFiles_run, hx] at h
      simp at h
    | error m0 =>
      rw [listEncryptedFiles_run, hx] at h
      exact ⟨m0, rfl, by simpa using h.symm⟩

theorem listEncryptedFiles_contract_witness :
    wEmptyList.listObjs "b" (some "in/") = Except.ok []
    ∧ listEncryptedFiles wEmptyList "b" (some "in/") =
        (Except.ok [], [Ev.listCall "b" (some "in/")]) :=
  ⟨rfl, (listEncryptedFiles_contract wEmptyList "b" (some "in/")).1 [] rfl⟩

/-- C4: when the key material resolves and the listing comes back empty, the
handler answers 200 with the empty `decryptedFiles` body, and its whole
trace holds no download, PGP, or upload operation. -/
theorem handler_empty_listing (w : World) (env : Env) (km : KeyMaterial)
    (t1 : List Ev)
    (h1 : resolveKeyMaterial w env.privateKey env.passphrase
        (effSecretName env) env.keyName = (Except.ok km, t1))
    (h2 : w.listObjs (effBucketName env) env.s3Pfx = Except.ok []) :
    handler w env =
      (Except.ok { statusCode := 200,
                   body := RespBody.noFiles "No files found to decrypt" },
       t1 ++ [Ev.listCall (effBucketName env) env.s3Pfx])
    ∧ ∀ e ∈ t1 ++ [Ev.listCall (effBucketName env) env.s3Pfx],
        Ev.isPerObject e = false := by
  constructor
  · simp [handler, bind_run, h1, listEncryptedFiles_run, h2, tryCatchM]
  · have ht := resolveKeyMaterial_trace w env.privateKey env.passphrase
      (effSecretName env) env.keyName
    rw [h1] at ht
    simp only [Prod.snd] at ht
    intro e he
    rcases List.mem_append.mp he with h | h
    · rcases ht with ht | ht <;> rw [ht] at h <;> simp at h
      rw [h]
      rfl
    · simp at h
      rw [h]
      rfl

/-- Environment for the C4 witness: a key override and nothing else. -/
def envOverride : Env := { privateKey := some "ARMORED" }

theorem handler_empty_listing_witness :
    handler wEmptyList envOverride =
      (Except.ok { statusCode := 200,
                   body := RespBody.noFiles "No files found to decrypt" },
       [] ++ [Ev.listCall (effBucketName envOverride) envOverride.s3Pfx])
    ∧ ∀ e ∈ ([] : List Ev) ++
        [Ev.listCall (effBucketName envOverride) envOverride.s3Pfx],
        Ev.isPerObject e = false :=
  handler_empty_listing wEmptyList envOverride
    { privateKey := "ARMORED", passphrase := none } [] rfl rfl

/-- C5: with no key override, a resolvable secret whose parsed payload lacks
the configured key field aborts the whole invocation: the handler answers
500 carrying the `Secret does not contain … field` message, and its trace is
the single secrets fetch — no listing call and no per-object operation ever
happens. -/
theorem handler_missing_key_field (w : World) (env : Env) (sn : String)
    (fields : List (String × String))
    (hpk : jsTruthyOpt env.privateKey = false)
    (hsn : effSecretName env = some sn)
    (hsec : w.secrets sn = Except.ok (SecretFetch.obj fields))
    (hmiss : jsTruthyOpt (jsGet fields (keyNameEff env.keyName)) = false) :
    handler w env =
      (Except.ok { statusCode := 500,
                   body := RespBody.errorBody "Internal server error"
                     ("Failed to retrieve PGP private key: Secret does not contain "
                       ++ keyNameEff env.keyName ++ " field") },
       [Ev.secretsFetch (some sn)])
    ∧ (∀ b p, Ev.listCall b p ∉ [Ev.secretsFetch (some sn)])
    ∧ (∀ b k, Ev.getObjCall b k ∉ [Ev.secretsFetch (some sn)]) := by
  refine ⟨?_, by simp, by simp⟩
  have hres : resolveKeyMaterial w env.privateKey env.passphrase
      (effSecretName env) env.keyName =
      (Except.error
        ("Failed to retrieve PGP private key: Secret does not contain "
          ++ keyNameEff env.keyName ++ " field"),
       [Ev.secretsFetch (some sn)]) := by
    rw [resolveKeyMaterial_fallback w env.privateKey env.passphrase
      (effSecretName env) env.keyName hpk, hsn]
    exact getPGPPrivateKey_run_missingField w sn env.keyName fields hsec hmiss
  simp [handler, bind_run, hres, tryCatchM]

/-- Environment for the C5 witness: a secret name and nothing else. -/
def envSecretOnly : Env := { secretName := some "pgp-secret" }

/-- A world whose secret `pgp-secret` parses to an object without the
`pgp-key` field. -/
def wNoKeyField : World :=
  { errWorld with
    secrets := fun _ => Except.ok (SecretFetch.obj [("passphrase", "pw")]) }

theorem handler_missing_key_field_witness :
    handler wNoKeyField envSecretOnly =
      (Except.ok { statusCode := 500,
                   body := RespBody.errorBody "Internal server error"
                     ("Failed to retrieve PGP private key: Secret does not contain "
                       ++ keyNameEff envSecretOnly.keyName ++ " field") },
       [Ev.secretsFetch (some "pgp-secret")])
    ∧ (∀ b p, Ev.listCall b p ∉ [Ev.secretsFetch (some "pgp-secret")])
    ∧ (∀ b k, Ev.getObjCall b k ∉ [Ev.secretsFetch (some "pgp-secret")]) :=
  handler_missing_key_field wNoKeyField envSecretOnly "pgp-secret"
    [("passphrase", "pw")] rfl rfl rfl rfl

/-- C6: if the environment carries a (non-empty — JavaScript truthiness at
line 205) private-key override, the key material is that override together
with the override passphrase and the whole invocation makes no secrets
fetch; otherwise the invocation makes exactly one secrets fetch. -/
theorem handler_key_override_policy (w : World) (env : Env) :
    (jsTruthyOpt env.privateKey = true →
      resolveKeyMaterial w env.privateKey env.passphrase
          (effSecretName env) env.keyName =
        (Except.ok { privateKey := env.privateKey.getD "",
                     passphrase := env.passphrase }, [])
      ∧ List.countP (fun e => isSecretsFetchEv e) (handler w env).2 = 0)
    ∧ (jsTruthyOpt env.privateKey = false →
      List.countP (fun e => isSecretsFetchEv e) (handler w env).2 = 1) := by
  constructor
  · intro h
    refine ⟨resolveKeyMaterial_truthy w env.privateKey env.passphrase
      (effSecretName env) env.keyName h, ?_⟩
    rw [handler_fetchCount w env,
      resolveKeyMaterial_truthy w env.privateKey env.passphrase
        (effSecretName env) env.keyName h]
    rfl
  · intro h
    rw [handler_fetchCount w env,
      resolveKeyMaterial_fallback w env.privateKey env.passphrase
        (effSecretName env) env.keyName h,
      getPGPPrivateKey_trace w (effSecretName env) env.keyName]
    rfl

theorem handler_key_override_policy_witness :
    (resolveKeyMaterial wEmptyList envOverride.privateKey
        envOverride.passphrase (effSecretName envOverride)
        envOverride.keyName =
      (Except.ok { privateKey := envOverride.privateKey.getD "",
                   passphrase := envOverride.passphrase }, [])
      ∧ List.countP (fun e => isSecretsFetchEv e)
          (handler wEmptyList envOverride).2 = 0) :=
  (handler_key_override_policy wEmptyList envOverride).1 rfl

/-- C8 counterexample: with no bucket configured anywhere (and a key
override so the run reaches the listing), the handler does not fail with a
configuration error — it proceeds and issues its listing call against the
hard-coded fallback bucket `sftp-file-sync-vivien`, completing with
status 200. -/
theorem handler_missing_bucket_counterexample :
    envOverride.bucketName = none ∧ envOverride.s3BucketName = none
    ∧ handler wEmptyList envOverride =
        (Except.ok { statusCode := 200,
                     body := RespBody.noFiles "No files found to decrypt" },
         [Ev.listCall "sftp-file-sync-vivien" none]) :=
  ⟨rfl, rfl, rfl⟩

/-- C8 (amended): absence of the bucket name is not an error at all: line
181 substitutes the built-in default, and any run that reaches the listing
step lists the bucket `sftp-file-sync-vivien`. -/
theorem handler_missing_bucket_uses_default (w : World) (env : Env)
    (km : KeyMaterial) (t1 : List Ev)
    (hb : env.bucketName = none) (hb2 : env.s3BucketName = none)
    (hk : resolveKeyMaterial w env.privateKey env.passphrase
        (effSecretName env) env.keyName = (Except.ok km, t1)) :
    ∃ resp rest, handler w env =
      (Except.ok resp,
       t1 ++ Ev.listCall "sftp-file-sync-vivien" env.s3Pfx :: rest) := by
  have hbn : effBucketName env = "sftp-file-sync-vivien" := by
    simp [effBucketName, jsOrStr, jsTruthyOpt, hb, hb2]
  cases hL : w.listObjs "sftp-file-sync-vivien" env.s3Pfx with
  | error m =>
    refine ⟨{ statusCode := 500,
              body := RespBody.errorBody "Internal server error"
                ("Failed to list files from S3: " ++ m) }, [], ?_⟩
    simp [handler, bind_run, hk, hbn, listEncryptedFiles_run, hL, tryCatchM]
  | ok files =>
    cases files with
    | nil =>
      refine ⟨{ statusCode := 200,
                body := RespBody.noFiles "No files found to decrypt" },
        [], ?_⟩
      simp [handler, bind_run, hk, hbn, listEncryptedFiles_run, hL,
        tryCatchM]
    | cons f fs =>
      obtain ⟨rs, t2, hP, -, -, -⟩ := processAll_spec w
        "sftp-file-sync-vivien" km.privateKey km.passphrase
        (effDecryptedPfx env) (f :: fs)
      refine ⟨{ statusCode := 200,
                body := RespBody.summary
                  (summaryMessage (f :: fs).length
                    ((rs.filter (fun r => !(jsTruthyOpt r.error))).length)
                    ((rs.filter (fun r => jsTruthyOpt r.error)).length))
                  rs }, t2, ?_⟩
      simp [handler, bind_run, hk, hbn, listEncryptedFiles_run, hL, hP,
        tryCatchM]

theorem handler_missing_bucket_uses_default_witness :
    ∃ resp rest, handler wEmptyList envOverride =
      (Except.ok resp,
       [] ++ Ev.listCall "sftp-file-sync-vivien" envOverride.s3Pfx
          :: rest) :=
  handler_missing_bucket_uses_default wEmptyList envOverride
    { privateKey := "ARMORED", passphrase := none } [] rfl rfl rfl

/-- C9: the decryption step reads the private key first; it decrypts the
key itself exactly when a passphrase is supplied (a `null`/absent — or, by
JavaScript truthiness, empty — passphrase skips that step and
`openpgp.decryptKey` is then never invoked); it then reads the encrypted
message and finally decrypts it with the (possibly decrypted) key, in this
order, as the traces show; the first failing step aborts the pipeline and
surfaces as `Failed to decrypt file: ` plus that step's message, covering
malformed ciphertext, wrong key, and bad passphrase alike. -/
theorem decryptFile_step_contract (w : World) (d : List Nat) (k : String)
    (p : Option String) :
    (∀ m, w.readPrivateKey k = Except.error m →
      decryptFile w d k p =
        (Except.error ("Failed to decrypt file: " ++ m), [Ev.readKeyCall k]))
    ∧ (jsTruthyOpt p = false →
        (∀ s, Ev.decryptKeyCall s ∉ (decryptFile w d k p).2)
        ∧ ∀ k1, w.readPrivateKey k = Except.ok k1 →
            (∀ m, w.readMessage d = Except.error m →
              decryptFile w d k p =
                (Except.error ("Failed to decrypt file: " ++ m),
                 [Ev.readKeyCall k, Ev.readMsgCall]))
            ∧ (∀ msg, w.readMessage d = Except.ok msg →
                (∀ m, w.decryptMsg msg k1 = Except.error m →
                  decryptFile w d k p =
                    (Except.error ("Failed to decrypt file: " ++ m),
                     [Ev.readKeyCall k, Ev.readMsgCall, Ev.decryptMsgCall]))
                ∧ (∀ out, w.decryptMsg msg k1 = Except.ok out →
                    decryptFile w d k p =
                      (Except.ok out,
                       [Ev.readKeyCall k, Ev.readMsgCall,
                        Ev.decryptMsgCall]))))
    ∧ (jsTruthyOpt p = true →
        ∀ k1, w.readPrivateKey k = Except.ok k1 →
          (∀ m, w.decryptKey k1 (p.getD "") = Except.error m →
            decryptFile w d k p =
              (Except.error ("Failed to decrypt file: " ++ m),
               [Ev.readKeyCall k, Ev.decryptKeyCall (p.getD "")]))
          ∧ ∀ k2, w.decryptKey k1 (p.getD "") = Except.ok k2 →
              (∀ m, w.readMessage d = Except.error m →
                decryptFile w d k p =
                  (Except.error ("Failed to decrypt file: " ++ m),
                   [Ev.readKeyCall k, Ev.decryptKeyCall (p.getD ""),
                    Ev.readMsgCall]))
              ∧ (∀ msg, w.readMessage d = Except.ok msg →
                  (∀ m, w.decryptMsg msg k2 = Except.error m →
                    decryptFile w d k p =
                      (Except.error ("Failed to decrypt file: " ++ m),
                       [Ev.readKeyCall k, Ev.decryptKeyCall (p.getD ""),
                        Ev.readMsgCall, Ev.decryptMsgCall]))
                  ∧ (∀ out, w.decryptMsg msg k2 = Except.ok out →
                      decryptFile w d k p =
                        (Except.ok out,
                         [Ev.readKeyCall k, Ev.decryptKeyCall (p.getD ""),
                          Ev.readMsgCall, Ev.decryptMsgCall])))) := by
  refine ⟨fun m hm => decryptFile_run_readKeyErr w d k p m hm, ?_, ?_⟩
  · intro hp
    constructor
    · intro s
      cases hk : w.readPrivateKey k with
      | error m => simp [decryptFile_run_readKeyErr w d k p m hk]
      | ok k1 =>
        cases hm : w.readMessage d with
        | error m =>
          simp [decryptFile_run_noPass_msgErr w d k p k1 m hp hk hm]
        | ok msg =>
          cases hd : w.decryptMsg msg k1 with
          | error m =>
            simp [decryptFile_run_noPass_dmErr w d k p k1 msg m hp hk hm hd]
          | ok out =>
            simp [decryptFile_run_noPass_ok w d k p k1 msg out hp hk hm hd]
    · intro k1 hk
      exact ⟨fun m hm => decryptFile_run_noPass_msgErr w d k p k1 m hp hk hm,
        fun msg hm =>
          ⟨fun m hd => decryptFile_run_noPass_dmErr w d k p k1 msg m hp hk
              hm hd,
           fun out hd => decryptFile_run_noPass_ok w d k p k1 msg out hp hk
              hm hd⟩⟩
  · intro hp k1 hk
    exact ⟨fun m hdk => decryptFile_run_pass_dkErr w d k p k1 m hp hk hdk,
      fun k2 hdk =>
        ⟨fun m hm => decryptFile_run_pass_msgErr w d k p k1 k2 m hp hk hdk
            hm,
         fun msg hm =>
          ⟨fun m hd => decryptFile_run_pass_dmErr w d k p k1 k2 msg m hp hk
              hdk hm hd,
           fun out hd => decryptFile_run_pass_ok w d k p k1 k2 msg out hp
              hk hdk hm hd⟩⟩⟩

/-- A PGP world in which every step succeeds. -/
def wPgp : World :=
  { errWorld with
    readPrivateKey := fun _ => Except.ok "K1",
    decryptKey := fun _ _ => Except.ok "K2",
    readMessage := fun _ => Except.ok [5],
    decryptMsg := fun _ _ => Except.ok [9] }

theorem decryptFile_step_contract_witness :
    decryptFile wPgp [1, 2] "ARM" (some "pw") =
      (Except.ok [9],
       [Ev.readKeyCall "ARM", Ev.decryptKeyCall "pw", Ev.readMsgCall,
        Ev.decryptMsgCall]) :=
  ((((decryptFile_step_contract wPgp [1, 2] "ARM" (some "pw")).2.2 rfl
    "K1" rfl).2 "K2" rfl).2 [5] rfl).2 [9] rfl

/-- C10: for a non-empty listing the handler's summary counts a result as a
failure exactly when it carries an error-message field (every recorded
message is non-empty, so JavaScript truthiness agrees with field presence),
counts it as a success exactly otherwise, the two counts sum to the length
of the result sequence, and the total in the message is the full listing
length — directory markers included — which can exceed that of the result
sequence. -/
theorem handler_summary_invariants (w : World) (env : Env)
    (km : KeyMaterial) (t1 : List Ev) (files : List ObjDesc)
    (h1 : resolveKeyMaterial w env.privateKey env.passphrase
        (effSecretName env) env.keyName = (Except.ok km, t1))
    (h2 : w.listObjs (effBucketName env) env.s3Pfx = Except.ok files)
    (h3 : files ≠ []) :
    ∃ rs t2,
      handler w env =
        (Except.ok { statusCode := 200,
                     body := RespBody.summary
                       (summaryMessage files.length
                         ((rs.filter (fun r => !(jsTruthyOpt r.error))).length)
                         ((rs.filter (fun r => jsTruthyOpt r.error)).length))
                       rs },
         t1 ++ Ev.listCall (effBucketName env) env.s3Pfx :: t2)
      ∧ (∀ r ∈ rs, jsTruthyOpt r.error = r.error.isSome)
      ∧ (rs.filter (fun r => !(jsTruthyOpt r.error))).length
          + (rs.filter (fun r => jsTruthyOpt r.error)).length = rs.length
      ∧ rs.length = (files.filter (fun f => !(jsEndsWith f.Key "/"))).length
      ∧ rs.length ≤ files.length := by
  cases files with
  | nil => exact absurd rfl h3
  | cons f fs =>
    obtain ⟨rs, t2, hP, hMap, hErr, -⟩ := processAll_spec w
      (effBucketName env) km.privateKey km.passphrase (effDecryptedPfx env)
      (f :: fs)
    have hlen : rs.length
        = ((f :: fs).filter (fun f => !(jsEndsWith f.Key "/"))).length := by
      have := congrArg List.length hMap
      simpa using this
    refine ⟨rs, t2, ?_, ?_, filter_length_split _ rs, hlen, ?_⟩
    · simp [handler, bind_run, h1, listEncryptedFiles_run, h2, hP,
        tryCatchM]
    · intro r hr
      rcases hErr r hr with hnone | ⟨m, hsome, hne⟩
      · simp [hnone, jsTruthyOpt]
      · simp [hsome, jsTruthyOpt, hne]
    · rw [hlen]
      exact List.length_filter_le _ _

/-- A world listing one encrypted object (all other oracles fail). -/
def wOneFile : World :=
  { errWorld with
    listObjs := fun _ _ => Except.ok [⟨"encrypt_files/a.gpg", 3, "t"⟩] }

theorem handler_summary_invariants_witness :
    ∃ rs t2,
      handler wOneFile envOverride =
        (Except.ok { statusCode := 200,
                     body := RespBody.summary
                       (summaryMessage
                         ([⟨"encrypt_files/a.gpg", 3, "t"⟩] :
                           List ObjDesc).length
                         ((rs.filter (fun r => !(jsTruthyOpt r.error))).length)
                         ((rs.filter (fun r => jsTruthyOpt r.error)).length))
                       rs },
         [] ++ Ev.listCall (effBucketName envOverride) envOverride.s3Pfx
            :: t2)
      ∧ (∀ r ∈ rs, jsTruthyOpt r.error = r.error.isSome)
      ∧ (rs.filter (fun r => !(jsTruthyOpt r.error))).length
          + (rs.filter (fun r => jsTruthyOpt r.error)).length = rs.length
      ∧ rs.length = (([⟨"encrypt_files/a.gpg", 3, "t"⟩] :
            List ObjDesc).filter (fun f => !(jsEndsWith f.Key "/"))).length
      ∧ rs.length ≤ ([⟨"encrypt_files/a.gpg", 3, "t"⟩] :
          List ObjDesc).length :=
  handler_summary_invariants wOneFile envOverride
    { privateKey := "ARMORED", passphrase := none } []
    [⟨"encrypt_files/a.gpg", 3, "t"⟩] rfl rfl (by decide)
